import Mathlib

/-!
# Verification of the konnectivity agent reconciler

Shallow embedding of `internal/resources/konnectivity/agent.go` from the
kamaji repository, together with proofs of the specified properties of the
`Agent` resource: the desired-state mutator `mutate`, the lifecycle
operations `CreateOrUpdate`, `CleanUp`, `ShouldStatusBeUpdated`, and the
status synchronizer `UpdateTenantControlPlaneStatus`.

Go maps keyed by strings are embedded as key-sorted association lists
(`SMap`): a canonical representative of the unordered Go map, matching the
sorted-key serialization used to flatten the argument map into the
container's argument list.
-/

namespace Kamaji

/-- A Go `map[string]string`, represented canonically as a strictly
key-sorted association list. -/
abbrev SMap := List (String × String)

/-- Insert (or overwrite) a binding in a canonical map, preserving strict
key-sortedness; models Go `m[k] = v`. -/
def mapInsert : SMap → String → String → SMap
  | [], k, v => [(k, v)]
  | (k', v') :: rest, k, v =>
    if k < k' then (k, v) :: (k', v') :: rest
    else if k = k' then (k, v) :: rest
    else (k', v') :: mapInsert rest k v

/-- Lookup in an association-list map; models Go `m[k]` / `v, ok := m[k]`. -/
def mapLookup : SMap → String → Option String
  | [], _ => none
  | (k', v') :: rest, k => if k = k' then some v' else mapLookup rest k

/-- Build a canonical map from a list of key/value pairs (later pairs
overwrite earlier ones), modelling a Go map literal or a loop of
assignments. -/
def mapOfList (l : List (String × String)) : SMap :=
  l.foldl (fun m kv => mapInsert m kv.1 kv.2) []

/-- Modelled from the spec: `utilities.MergeMaps` (a pure label helper not
under `src/`) merges maps left to right, entries of later maps overriding
earlier ones and all other entries preserved. -/
def mergeMaps (a b : SMap) : SMap :=
  b.foldl (fun m kv => mapInsert m kv.1 kv.2) a

theorem mapInsert_idem (m : SMap) (k v : String) :
    mapInsert (mapInsert m k v) k v = mapInsert m k v := by
  induction m with
  | nil => simp [mapInsert]
  | cons hd tl ih =>
    obtain ⟨k', v'⟩ := hd
    by_cases hlt : k < k'
    · simp [mapInsert, hlt, lt_irrefl]
    · by_cases heq : k = k'
      · simp [mapInsert, hlt, heq, lt_irrefl]
      · simp [mapInsert, hlt, heq, ih]

theorem mapLookup_insert_self (m : SMap) (k v : String) :
    mapLookup (mapInsert m k v) k = some v := by
  induction m with
  | nil => simp [mapInsert, mapLookup]
  | cons hd tl ih =>
    obtain ⟨k', v'⟩ := hd
    by_cases hlt : k < k'
    · simp [mapInsert, mapLookup, hlt]
    · by_cases heq : k = k'
      · simp [mapInsert, mapLookup, hlt, heq]
      · have hne : ¬ k = k' := heq
        simp [mapInsert, mapLookup, hlt, heq, hne, ih]

theorem mapLookup_insert_ne (m : SMap) (k k' v : String) (h : k ≠ k') :
    mapLookup (mapInsert m k' v) k = mapLookup m k := by
  induction m with
  | nil => simp [mapInsert, mapLookup, h]
  | cons hd tl ih =>
    obtain ⟨a, b⟩ := hd
    by_cases hlt : k' < a
    · simp [mapInsert, mapLookup, hlt, h]
    · by_cases heq : k' = a
      · subst heq
        simp [mapInsert, mapLookup, hlt, h]
      · simp [mapInsert, mapLookup, hlt, heq, ih]

theorem mapLookup_mem (m : SMap) (k v : String)
    (h : mapLookup m k = some v) : (k, v) ∈ m := by
  induction m with
  | nil => simp [mapLookup] at h
  | cons hd tl ih =>
    obtain ⟨k', v'⟩ := hd
    by_cases heq : k = k'
    · simp [mapLookup, heq] at h
      subst heq
      subst h
      exact List.mem_cons_self _ _
    · simp [mapLookup, heq] at h
      exact List.mem_cons_of_mem _ (ih h)

/-! ## Data model (from `api/v1alpha1` types and `k8s.io` API types) -/

/-- `kamajiv1alpha1.KonnectivityAgentSpec`: agent image, version and extra
command-line arguments. -/
structure KonnectivityAgentSpec where
  image : String
  version : String
  extraArgs : List String
deriving DecidableEq, Repr

/-- `kamajiv1alpha1.KonnectivityServerSpec`: the proxy server port. -/
structure KonnectivityServerSpec where
  port : Int
deriving DecidableEq, Repr

/-- `kamajiv1alpha1.KonnectivitySpec`: configuration of the konnectivity
add-on, present iff the add-on is enabled. -/
structure KonnectivitySpec where
  konnectivityAgentSpec : KonnectivityAgentSpec
  konnectivityServerSpec : KonnectivityServerSpec
deriving DecidableEq, Repr

/-- `kamajiv1alpha1.ExternalKubernetesObjectStatus`: name, namespace and
last-update timestamp of an object managed in the tenant cluster.
`metav1.Time` is embedded as a `Nat` (zero is the zero time). -/
structure ExternalKubernetesObjectStatus where
  name : String
  namespaceField : String
  lastUpdate : Nat
deriving DecidableEq, Repr

/-- The konnectivity part of the tenant control plane status: the agent
object status and the cluster-role-binding name used as token audience. -/
structure KonnectivityStatus where
  agent : ExternalKubernetesObjectStatus
  clusterRoleBindingName : String
deriving DecidableEq, Repr

/-- The fields of `kamajiv1alpha1.TenantControlPlane` read or written by the
agent reconciler: the optional add-on spec (`Spec.Addons.Konnectivity`), the
konnectivity status, and the assigned control-plane address.
`AssignedControlPlaneAddress` lives in the api package (not under `src/`);
modelled from the spec as an optional already-resolved address: `none` means
the externally reachable address is not yet available. -/
structure TenantControlPlane where
  name : String
  konnectivity : Option KonnectivitySpec
  status : KonnectivityStatus
  assignedAddress : Option String
deriving DecidableEq, Repr

/-- `corev1.VolumeMount`: only the fields set by the mutator. -/
structure VolumeMount where
  mountPath : String
  name : String
deriving DecidableEq, Repr

/-- `corev1.ServiceAccountTokenProjection`. -/
structure ServiceAccountTokenProjection where
  path : String
  audience : String
  expirationSeconds : Int
deriving DecidableEq, Repr

/-- `corev1.ProjectedVolumeSource`: the service-account-token sources and
the default file mode. -/
structure ProjectedVolumeSource where
  sources : List ServiceAccountTokenProjection
  defaultMode : Option Int
deriving DecidableEq, Repr

/-- `corev1.Volume` restricted to the projected volume source used here. -/
structure Volume where
  name : String
  projected : Option ProjectedVolumeSource
deriving DecidableEq, Repr

/-- `corev1.URIScheme`. -/
inductive URIScheme where
  | HTTP
  | HTTPS
deriving DecidableEq, Repr

/-- `corev1.HTTPGetAction`. -/
structure HTTPGetAction where
  path : String
  port : Int
  scheme : URIScheme
deriving DecidableEq, Repr

/-- `corev1.Probe` with an HTTP-GET handler. -/
structure Probe where
  httpGet : Option HTTPGetAction
  initialDelaySeconds : Int
  timeoutSeconds : Int
  periodSeconds : Int
  successThreshold : Int
  failureThreshold : Int
deriving DecidableEq, Repr

/-- `corev1.Toleration`: only the fields set by the mutator. -/
structure Toleration where
  key : String
  operator : String
deriving DecidableEq, Repr

/-- `corev1.Container`: the fields written by the mutator plus
representative fields it does not touch (environment variables, ports,
resource requests), which matter for the frame conditions. The zero value
(`Inhabited` default) is the freshly zeroed container produced by
`make([]corev1.Container, 1)`. -/
structure Container where
  image : String := ""
  name : String := ""
  command : List String := []
  args : List String := []
  volumeMounts : List VolumeMount := []
  livenessProbe : Option Probe := none
  env : List (String × String) := []
  ports : List Int := []
  resources : List (String × String) := []
deriving DecidableEq, Repr, Inhabited

/-- `corev1.PodSpec`: the fields written by the mutator. -/
structure PodSpec where
  priorityClassName : String := ""
  tolerations : List Toleration := []
  nodeSelector : SMap := []
  serviceAccountName : String := ""
  volumes : List Volume := []
  containers : List Container := []
deriving DecidableEq, Repr, Inhabited

/-- `corev1.PodTemplateSpec`: labels plus pod spec. -/
structure PodTemplateSpec where
  labels : SMap := []
  spec : PodSpec := {}
deriving DecidableEq, Repr, Inhabited

/-- `metav1.LabelSelector`: only match-labels are used. -/
structure LabelSelector where
  matchLabels : SMap := []
deriving DecidableEq, Repr, Inhabited

/-- `appsv1.DaemonSetSpec`: selector and pod template. -/
structure DaemonSetSpec where
  selector : Option LabelSelector := none
  template : PodTemplateSpec := {}
deriving DecidableEq, Repr, Inhabited

/-- `appsv1.DaemonSet`: the managed object. -/
structure DaemonSet where
  name : String := ""
  namespaceField : String := ""
  labels : SMap := []
  spec : DaemonSetSpec := {}
deriving DecidableEq, Repr, Inhabited

/-! ## Constants and utility helpers

`AgentName`, `AgentNamespace` and `agentTokenName` are package constants of
`internal/resources/konnectivity` whose defining file is not under `src/`;
their values are pinned by the code under `src/`: `GetName()` returns
`"konnectivity-agent"`, and the literal argument value
`"/var/run/secrets/tokens/konnectivity-agent-token"` fixes the token name.
-/

/-- `Agent.GetName` (agent.go): the resource name. -/
def GetName : String := "konnectivity-agent"

/-- The `AgentName` constant: equal to the value returned by `GetName`. -/
def AgentName : String := "konnectivity-agent"

/-- Modelled from the spec: the fixed well-known namespace constant
`AgentNamespace` for the managed object (spec §6: fixed name/namespace
constants, independent of tenant identity). -/
def AgentNamespace : String := "kube-system"

/-- The `agentTokenName` constant: the token file name, pinned by the
`--service-account-token-path` literal in `mutate`. -/
def agentTokenName : String := "konnectivity-agent-token"

/-- Modelled from the spec: `utilities.KamajiLabels` (a pure label helper
not under `src/`) builds the ownership/discovery labels of the managed
object from the tenant control plane name and the resource name. -/
def KamajiLabels (tcpName resName : String) : SMap :=
  mapOfList [("kamaji.clastix.io/name", tcpName),
             ("kamaji.clastix.io/component", resName)]

/-- Modelled from the spec: each user-supplied extra argument string is
split at its first `=` into flag name and value. -/
def splitArg (s : String) : String × String :=
  match s.splitOn "=" with
  | [] => (s, "")
  | k :: rest => (k, String.intercalate "=" rest)

/-- Modelled from the spec: `utilities.ArgsFromSliceToMap` (not under
`src/`) converts the flat extra-argument list into a map keyed by flag
name (spec §9: an ordered map keyed by flag name). -/
def ArgsFromSliceToMap (args : List String) : SMap :=
  args.foldl (fun m a => mapInsert m (splitArg a).1 (splitArg a).2) []

/-- Modelled from the spec: `utilities.ArgsFromMapToSlice` (not under
`src/`) serializes the argument map to a flat `flag=value` list in a
stable sorted-key order (spec §9). -/
def ArgsFromMapToSlice (m : SMap) : List String :=
  m.map (fun kv => kv.1 ++ "=" ++ kv.2)

/-! ## The mutator (`Agent.mutate`, agent.go lines 101-202) -/

/-- Errors surfaced by the embedded operations. `storeError` stands for an
arbitrary error returned by the remote store. -/
inductive AgentError where
  | addressResolutionError
  | nilAddonPanic
  | storeError (code : Nat)
deriving DecidableEq, Repr

/-- The container argument map built by `mutate` (agent.go lines 167-177):
the user-supplied extra arguments converted to a map, then each built-in
argument assigned on top of it (built-ins therefore win on key collision). -/
def agentArgs (k : KonnectivitySpec) (address : String) : SMap :=
  let args := ArgsFromSliceToMap k.konnectivityAgentSpec.extraArgs
  let args := mapInsert args "-v" "8"
  let args := mapInsert args "--logtostderr" "true"
  let args := mapInsert args "--ca-cert"
      "/var/run/secrets/kubernetes.io/serviceaccount/ca.crt"
  let args := mapInsert args "--proxy-server-host" address
  let args := mapInsert args "--proxy-server-port"
      (toString k.konnectivityServerSpec.port)
  let args := mapInsert args "--admin-server-port" "8133"
  let args := mapInsert args "--health-server-port" "8134"
  mapInsert args "--service-account-token-path"
      "/var/run/secrets/tokens/konnectivity-agent-token"

/-- The writes `mutate` performs on `Containers[0]` (agent.go lines
163-198): image, name, command, args, volume mounts and liveness probe are
overwritten; every other container field is left as it was. -/
def updateContainer (k : KonnectivitySpec) (address : String)
    (c : Container) : Container :=
  { c with
    image := k.konnectivityAgentSpec.image ++ ":"
        ++ k.konnectivityAgentSpec.version
    name := AgentName
    command := ["/proxy-agent"]
    args := ArgsFromMapToSlice (agentArgs k address)
    volumeMounts := [{ mountPath := "/var/run/secrets/tokens",
                       name := agentTokenName }]
    livenessProbe := some
      { httpGet := some { path := "/healthz", port := 8134,
                          scheme := URIScheme.HTTP }
        initialDelaySeconds := 15
        timeoutSeconds := 15
        periodSeconds := 10
        successThreshold := 1
        failureThreshold := 3 } }

/-- `Agent.mutate` (agent.go lines 101-202), embedded as a pure state
update: returns the error (if any) and the resulting in-memory object.
The address is resolved first; on failure the function returns before any
field is written, so the object comes back unchanged. Accessing the add-on
spec when it is `nil` would be a Go nil dereference; it is embedded as the
`nilAddonPanic` error and is unreachable because `CreateOrUpdate` only
invokes `mutate` when the add-on is enabled. -/
def mutate (tcp : TenantControlPlane) (ds : DaemonSet) :
    Option AgentError × DaemonSet :=
  match tcp.assignedAddress with
  | none => (some AgentError.addressResolutionError, ds)
  | some address =>
    match tcp.konnectivity with
    | none => (some AgentError.nilAddonPanic, ds)
    | some k =>
      let sel0 : LabelSelector :=
        match ds.spec.selector with
        | none => {}
        | some s => s
      let cs0 : List Container :=
        if ds.spec.template.spec.containers.length ≠ 1 then [{}]
        else ds.spec.template.spec.containers
      let cs : List Container :=
        match cs0 with
        | [] => []
        | c :: rest => updateContainer k address c :: rest
      (none,
       { ds with
         labels := KamajiLabels tcp.name GetName
         spec :=
           { selector := some
               { sel0 with
                 matchLabels := mapOfList [("k8s-app", AgentName)] }
             template :=
               { labels := mergeMaps ds.spec.template.labels
                   (mapOfList [("k8s-app", AgentName)])
                 spec :=
                   { ds.spec.template.spec with
                     priorityClassName := "system-cluster-critical"
                     tolerations := [{ key := "CriticalAddonsOnly",
                                       operator := "Exists" }]
                     nodeSelector := mapOfList [("kubernetes.io/os", "linux")]
                     serviceAccountName := AgentName
                     volumes := [{ name := agentTokenName
                                   projected := some
                                     { sources := [{ path := agentTokenName
                                                     audience := tcp.status.clusterRoleBindingName
                                                     expirationSeconds := 3600 }]
                                       defaultMode := some 420 } }]
                     containers := cs } } } })

/-! ## Lifecycle operations (agent.go lines 30-99) -/

/-- `Agent.ShouldStatusBeUpdated` (agent.go lines 30-32), exactly as
written in the code: the add-on spec is `nil` AND the status agent
namespace has length zero. -/
def ShouldStatusBeUpdated (tcp : TenantControlPlane) : Bool :=
  tcp.konnectivity.isNone && tcp.status.agent.namespaceField.length == 0

/-- `Agent.ShouldCleanup` (agent.go lines 34-36). -/
def ShouldCleanup (tcp : TenantControlPlane) : Bool :=
  tcp.konnectivity.isNone

/-- Outcome of the tenant client's `Delete` call, as observed by
`CleanUp`: success, a not-found error, or any other store error. -/
inductive DeleteOutcome where
  | ok
  | notFound
  | failed (code : Nat)
deriving DecidableEq, Repr

/-- `Agent.CleanUp` (agent.go lines 38-52) as a function of the delete
call's outcome: a not-found error is swallowed with `deleted = false`, any
other error is returned unchanged with `deleted = false`, success returns
`deleted = true`. -/
def CleanUp : DeleteOutcome → Bool × Option AgentError
  | DeleteOutcome.notFound => (false, none)
  | DeleteOutcome.failed c => (false, some (AgentError.storeError c))
  | DeleteOutcome.ok => (true, none)

/-- The tenant store holds at most one managed object (identified by the
fixed name/namespace). `Delete` succeeds and empties the store when the
object is present, and reports not-found when it is absent. -/
def tenantDelete : Option DaemonSet → DeleteOutcome × Option DaemonSet
  | none => (DeleteOutcome.notFound, none)
  | some _ => (DeleteOutcome.ok, none)

/-- `CleanUp` run against the store: delete by identity, then classify the
outcome as `CleanUp` does. -/
def CleanUpStore (store : Option DaemonSet) :
    Bool × Option AgentError × Option DaemonSet :=
  let (out, store') := tenantDelete store
  let (deleted, err) := CleanUp out
  (deleted, err, store')

/-- `Agent.UpdateTenantControlPlaneStatus` (agent.go lines 85-99):
`metav1.Now()` is passed in as `now`. When the add-on is enabled the
status is overwritten with the managed object's name, namespace and the
fresh timestamp; when disabled it is reset to the zero value. Both
branches return `nil` as the error. -/
def UpdateTenantControlPlaneStatus (now : Nat) (resource : DaemonSet)
    (tcp : TenantControlPlane) : Option AgentError × TenantControlPlane :=
  match tcp.konnectivity with
  | some _ =>
    (none,
     { tcp with status :=
        { tcp.status with agent :=
           { name := resource.name
             namespaceField := resource.namespaceField
             lastUpdate := now } } })
  | none =>
    (none,
     { tcp with status :=
        { tcp.status with agent :=
           { name := "", namespaceField := "", lastUpdate := 0 } } })

/-- `controllerutil.OperationResult` restricted to the values this
reconciler can produce. -/
inductive OperationResult where
  | None
  | Created
  | Updated
deriving DecidableEq, Repr

/-- The combined in-memory/remote state the agent operates on: the
in-memory object under construction and the object held by the tenant
store. -/
structure AgentState where
  resource : DaemonSet
  store : Option DaemonSet
deriving DecidableEq, Repr

/-- Modelled from the spec: the `controllerutil.CreateOrUpdate` primitive
(an external collaborator). It re-reads the object by identity before
diffing: if absent, the mutate function runs on the in-memory object and
the result is created; if present, the mutate function runs on the stored
state and the object is updated only when the result differs. A mutate
error aborts with no write to the store. Returns
(error, result, store after, in-memory object after). -/
def createOrUpdatePrimitive (store : Option DaemonSet) (obj : DaemonSet)
    (f : DaemonSet → Option AgentError × DaemonSet) :
    Option AgentError × OperationResult × Option DaemonSet × DaemonSet :=
  match store with
  | none =>
    match f obj with
    | (some e, obj') => (some e, OperationResult.None, none, obj')
    | (none, obj') => (none, OperationResult.Created, some obj', obj')
  | some existing =>
    match f existing with
    | (some e, obj') => (some e, OperationResult.None, some existing, obj')
    | (none, obj') =>
      if obj' = existing then
        (none, OperationResult.None, some existing, obj')
      else
        (none, OperationResult.Updated, some obj', obj')

/-- `Agent.CreateOrUpdate` (agent.go lines 73-79): when the add-on is
enabled, delegate to the create-or-update primitive with `mutate` as the
convergence function; when disabled, return `OperationResultNone` with no
error and touch nothing. -/
def CreateOrUpdate (tcp : TenantControlPlane) (st : AgentState) :
    Option AgentError × OperationResult × AgentState :=
  match tcp.konnectivity with
  | some _ =>
    let (e, r, store', res') :=
      createOrUpdatePrimitive st.store st.resource (mutate tcp)
    (e, r, { resource := res', store := store' })
  | none => (none, OperationResult.None, st)

/-- Modelled from the spec: the surrounding orchestrator's reconcile pass
(not under `src/`): cleanup when the add-on is disabled, otherwise
create-or-update with the mutator; a failed step aborts the pass and
leaves the status untouched; on completion the status synchronizer runs
unconditionally. Returns (error, control plane after, state after). -/
def reconcilePass (now : Nat) (tcp : TenantControlPlane) (st : AgentState) :
    Option AgentError × TenantControlPlane × AgentState :=
  if ShouldCleanup tcp then
    let (_deleted, err, store') := CleanUpStore st.store
    match err with
    | some e => (some e, tcp, { st with store := store' })
    | none =>
      let (_, tcp') := UpdateTenantControlPlaneStatus now st.resource tcp
      (none, tcp', { st with store := store' })
  else
    match CreateOrUpdate tcp st with
    | (some e, _, st') => (some e, tcp, st')
    | (none, _, st') =>
      let (_, tcp') := UpdateTenantControlPlaneStatus now st'.resource tcp
      (none, tcp', st')

/-! ## Closed form of a successful `mutate` -/

/-- The object produced by a successful `mutate` call, in closed form:
when the incoming object holds exactly one container that container is
kept (and rewritten in place), otherwise the container list is replaced by
a single zero container (then rewritten). -/
def mutateResult (tcp : TenantControlPlane) (k : KonnectivitySpec)
    (address : String) (ds : DaemonSet) : DaemonSet :=
  { ds with
    labels := KamajiLabels tcp.name GetName
    spec :=
      { selector := some { matchLabels := mapOfList [("k8s-app", AgentName)] }
        template :=
          { labels := mergeMaps ds.spec.template.labels
              (mapOfList [("k8s-app", AgentName)])
            spec :=
              { ds.spec.template.spec with
                priorityClassName := "system-cluster-critical"
                tolerations := [{ key := "CriticalAddonsOnly",
                                  operator := "Exists" }]
                nodeSelector := mapOfList [("kubernetes.io/os", "linux")]
                serviceAccountName := AgentName
                volumes := [{ name := agentTokenName
                              projected := some
                                { sources := [{ path := agentTokenName
                                                audience := tcp.status.clusterRoleBindingName
                                                expirationSeconds := 3600 }]
                                  defaultMode := some 420 } }]
                containers := [updateContainer k address
                  (if ds.spec.template.spec.containers.length = 1
                   then ds.spec.template.spec.containers.headD {}
                   else {})] } } } }

theorem mutate_eq (tcp : TenantControlPlane) (ds : DaemonSet)
    (k : KonnectivitySpec) (address : String)
    (hk : tcp.konnectivity = some k)
    (ha : tcp.assignedAddress = some address) :
    mutate tcp ds = (none, mutateResult tcp k address ds) := by
  by_cases h1 : ds.spec.template.spec.containers.length = 1
  · obtain ⟨c, hc⟩ := List.length_eq_one.mp h1
    simp [mutate, mutateResult, hk, ha, hc]
  · simp [mutate, mutateResult, hk, ha, h1]

theorem updateContainer_idem (k : KonnectivitySpec) (address : String)
    (c : Container) :
    updateContainer k address (updateContainer k address c) =
      updateContainer k address c := rfl

theorem mutateResult_idem (tcp : TenantControlPlane) (k : KonnectivitySpec)
    (address : String) (ds : DaemonSet) :
    mutateResult tcp k address (mutateResult tcp k address ds) =
      mutateResult tcp k address ds := by
  simp [mutateResult, mergeMaps, mapOfList, mapInsert, mapInsert_idem,
    updateContainer_idem]

/-! ## Concrete example inputs (used by witnesses) -/

/-- Example add-on spec from spec §8: image `"agent"`, version `"v1"`,
port `8132`, and an extra argument colliding with the built-in
`--logtostderr`. -/
def exSpec : KonnectivitySpec :=
  { konnectivityAgentSpec :=
      { image := "agent", version := "v1",
        extraArgs := ["--logtostderr=false"] }
    konnectivityServerSpec := { port := 8132 } }

/-- Example enabled tenant control plane with a resolvable address. -/
def exTCP : TenantControlPlane :=
  { name := "tcp-1"
    konnectivity := some exSpec
    status := { agent := { name := "", namespaceField := "", lastUpdate := 0 }
                clusterRoleBindingName := "crb" }
    assignedAddress := some "10.0.0.1" }

/-- Example disabled tenant control plane whose status still records a
populated agent object. -/
def exTCPDisabledPopulated : TenantControlPlane :=
  { name := "tcp-1"
    konnectivity := none
    status := { agent := { name := "konnectivity-agent",
                           namespaceField := "kube-system", lastUpdate := 5 }
                clusterRoleBindingName := "crb" }
    assignedAddress := none }

/-- Example disabled tenant control plane whose status is already empty. -/
def exTCPDisabledCleared : TenantControlPlane :=
  { name := "tcp-1"
    konnectivity := none
    status := { agent := { name := "", namespaceField := "", lastUpdate := 0 }
                clusterRoleBindingName := "" }
    assignedAddress := none }

/-- Example enabled tenant control plane whose address is not resolvable. -/
def exTCPUnresolved : TenantControlPlane :=
  { name := "tcp-1"
    konnectivity := some exSpec
    status := { agent := { name := "", namespaceField := "", lastUpdate := 0 }
                clusterRoleBindingName := "crb" }
    assignedAddress := none }

/-- Example managed object as constructed by `Define`: only name and
namespace populated. -/
def exDS : DaemonSet :=
  { name := AgentName, namespaceField := AgentNamespace }

/-! ## Claim theorems -/

/-- C2: the claim states `ShouldStatusBeUpdated` is true iff the add-on is
disabled AND the status still shows a populated object. The code (agent.go
line 31) tests `len(namespace) == 0`, i.e. returns true exactly when the
status is already empty: on a disabled control plane with populated status
it returns `false` (the claim demands `true`), and on a disabled control
plane with cleared status it returns `true` (the claim demands `false`).
The predicate as coded never triggers the status-only pass that would
clear a lingering status after disablement, contradicting the function's
own purpose; the condition is inverted (`== 0` where `> 0` is intended). -/
theorem C2_shouldStatusBeUpdated_inverted :
    ShouldStatusBeUpdated exTCPDisabledPopulated = false ∧
    ShouldStatusBeUpdated exTCPDisabledCleared = true := by
  constructor <;> rfl

/-- Lookup values of the eight built-in arguments in the argument map
built by `mutate`: each one carries its built-in value, whatever the
user-supplied extra arguments were. -/
theorem agentArgs_builtins (k : KonnectivitySpec) (address : String) :
    mapLookup (agentArgs k address) "-v" = some "8" ∧
    mapLookup (agentArgs k address) "--logtostderr" = some "true" ∧
    mapLookup (agentArgs k address) "--ca-cert" =
      some "/var/run/secrets/kubernetes.io/serviceaccount/ca.crt" ∧
    mapLookup (agentArgs k address) "--proxy-server-host" = some address ∧
    mapLookup (agentArgs k address) "--proxy-server-port" =
      some (toString k.konnectivityServerSpec.port) ∧
    mapLookup (agentArgs k address) "--admin-server-port" = some "8133" ∧
    mapLookup (agentArgs k address) "--health-server-port" = some "8134" ∧
    mapLookup (agentArgs k address) "--service-account-token-path" =
      some "/var/run/secrets/tokens/konnectivity-agent-token" := by
  refine ⟨?_, ?_, ?_, ?_, ?_, ?_, ?_, ?_⟩ <;>
  · simp only [agentArgs]
    repeat rw [mapLookup_insert_ne _ _ _ _ (by decide)]
    exact mapLookup_insert_self _ _ _

/-- Serialization preserves bindings: a binding present in the argument
map appears as `key=value` in the flat argument list. -/
theorem args_mem_of_lookup (m : SMap) (key v : String)
    (h : mapLookup m key = some v) :
    (key ++ "=" ++ v) ∈ ArgsFromMapToSlice m := by
  have hm := mapLookup_mem m key v h
  simp only [ArgsFromMapToSlice, List.mem_map]
  exact ⟨(key, v), hm, rfl⟩

/-- C1: for every enabled control plane on which `mutate` succeeds, the
container's final argument list contains every built-in argument with its
built-in value — whatever the user-supplied extra arguments were, so also
when they define the same keys with different values (built-ins are
assigned into the argument map after the extra arguments and therefore win
every key collision). -/
theorem C1_builtin_args_win (tcp : TenantControlPlane) (ds : DaemonSet)
    (k : KonnectivitySpec) (address : String)
    (hk : tcp.konnectivity = some k)
    (ha : tcp.assignedAddress = some address) :
    (mutate tcp ds).1 = none ∧
    ∃ c rest,
      ((mutate tcp ds).2).spec.template.spec.containers = c :: rest ∧
      "-v=8" ∈ c.args ∧
      "--logtostderr=true" ∈ c.args ∧
      "--ca-cert=/var/run/secrets/kubernetes.io/serviceaccount/ca.crt"
        ∈ c.args ∧
      ("--proxy-server-host=" ++ address) ∈ c.args ∧
      ("--proxy-server-port=" ++ toString k.konnectivityServerSpec.port)
        ∈ c.args ∧
      "--admin-server-port=8133" ∈ c.args ∧
      "--health-server-port=8134" ∈ c.args ∧
      "--service-account-token-path=/var/run/secrets/tokens/konnectivity-agent-token"
        ∈ c.args := by
  rw [mutate_eq tcp ds k address hk ha]
  obtain ⟨h1, h2, h3, h4, h5, h6, h7, h8⟩ := agentArgs_builtins k address
  exact ⟨rfl, _, [], rfl,
    args_mem_of_lookup _ _ _ h1, args_mem_of_lookup _ _ _ h2,
    args_mem_of_lookup _ _ _ h3, args_mem_of_lookup _ _ _ h4,
    args_mem_of_lookup _ _ _ h5, args_mem_of_lookup _ _ _ h6,
    args_mem_of_lookup _ _ _ h7, args_mem_of_lookup _ _ _ h8⟩

/-- C1 witness: the theorem applied to the example control plane, whose
extra arguments set `--logtostderr=false`; the built-in value `true` still
appears in the final list. -/
theorem C1_builtin_args_win_witness :
    (mutate exTCP exDS).1 = none ∧
    ∃ c rest,
      ((mutate exTCP exDS).2).spec.template.spec.containers = c :: rest ∧
      "-v=8" ∈ c.args ∧
      "--logtostderr=true" ∈ c.args ∧
      "--ca-cert=/var/run/secrets/kubernetes.io/serviceaccount/ca.crt"
        ∈ c.args ∧
      ("--proxy-server-host=" ++ "10.0.0.1") ∈ c.args ∧
      ("--proxy-server-port=" ++ toString exSpec.konnectivityServerSpec.port)
        ∈ c.args ∧
      "--admin-server-port=8133" ∈ c.args ∧
      "--health-server-port=8134" ∈ c.args ∧
      "--service-account-token-path=/var/run/secrets/tokens/konnectivity-agent-token"
        ∈ c.args :=
  C1_builtin_args_win exTCP exDS exSpec "10.0.0.1" rfl rfl

/-- C5: when the control plane's network address is not resolvable,
`mutate` returns the `AddressResolutionError` with the object exactly as
it was (the address is resolved before any field is written); through the
reconcile pass the error propagates unchanged, the store sees no create or
update, and the status is not modified in that pass. -/
theorem C5_address_unresolved (now : Nat) (tcp : TenantControlPlane)
    (st : AgentState) (hk : tcp.konnectivity.isSome = true)
    (ha : tcp.assignedAddress = none) :
    (∀ ds, mutate tcp ds = (some AgentError.addressResolutionError, ds)) ∧
    (reconcilePass now tcp st).1 = some AgentError.addressResolutionError ∧
    (reconcilePass now tcp st).2.1 = tcp ∧
    (reconcilePass now tcp st).2.2.store = st.store := by
  cases hK : tcp.konnectivity with
  | none => rw [hK] at hk; simp at hk
  | some k =>
    have hm : ∀ ds, mutate tcp ds =
        (some AgentError.addressResolutionError, ds) := by
      intro ds
      simp [mutate, ha]
    have hsc : ShouldCleanup tcp = false := by simp [ShouldCleanup, hK]
    refine ⟨hm, ?_⟩
    cases hst : st.store with
    | none =>
      simp [reconcilePass, hsc, CreateOrUpdate, hK,
        createOrUpdatePrimitive, hm, hst]
    | some existing =>
      simp [reconcilePass, hsc, CreateOrUpdate, hK,
        createOrUpdatePrimitive, hm, hst]

/-- C5 witness: the theorem applied to the example control plane whose
address is unresolved, against a populated store. -/
theorem C5_address_unresolved_witness :
    mutate exTCPUnresolved exDS =
      (some AgentError.addressResolutionError, exDS) ∧
    (reconcilePass 7 exTCPUnresolved ⟨exDS, some exDS⟩).1 =
      some AgentError.addressResolutionError ∧
    (reconcilePass 7 exTCPUnresolved ⟨exDS, some exDS⟩).2.1 =
      exTCPUnresolved ∧
    (reconcilePass 7 exTCPUnresolved ⟨exDS, some exDS⟩).2.2.store =
      some exDS := by
  have h := C5_address_unresolved 7 exTCPUnresolved ⟨exDS, some exDS⟩ rfl rfl
  exact ⟨h.1 exDS, h.2.1, h.2.2.1, h.2.2.2⟩

/-- C3: `mutate` is idempotent: whenever it succeeds on an (object, spec)
pair, running it again on the resulting object with the same control plane
succeeds and returns the identical object (so every field, including the
serialized argument list and its order, comes out the same both times). -/
theorem C3_mutate_idempotent (tcp : TenantControlPlane) (ds : DaemonSet)
    (h : (mutate tcp ds).1 = none) :
    mutate tcp ((mutate tcp ds).2) = mutate tcp ds := by
  cases hA : tcp.assignedAddress with
  | none => simp [mutate, hA] at h
  | some address =>
    cases hK : tcp.konnectivity with
    | none => simp [mutate, hA, hK] at h
    | some k =>
      rw [mutate_eq tcp ds k address hK hA,
        mutate_eq tcp _ k address hK hA, mutateResult_idem]

/-- C3 witness: the theorem applied to the example control plane and the
freshly defined (empty) managed object. -/
theorem C3_mutate_idempotent_witness :
    mutate exTCP ((mutate exTCP exDS).2) = mutate exTCP exDS :=
  C3_mutate_idempotent exTCP exDS rfl

/-- C4: after any successful `mutate`, the selector is present and each of
its match-label pairs also occurs, with the same value, among the pod
template's labels (selector ⊆ template labels). -/
theorem C4_selector_subset_template_labels (tcp : TenantControlPlane)
    (ds : DaemonSet) (h : (mutate tcp ds).1 = none) :
    ∃ sel, ((mutate tcp ds).2).spec.selector = some sel ∧
      ∀ kv ∈ sel.matchLabels,
        mapLookup ((mutate tcp ds).2).spec.template.labels kv.1 =
          some kv.2 := by
  cases hA : tcp.assignedAddress with
  | none => simp [mutate, hA] at h
  | some address =>
    cases hK : tcp.konnectivity with
    | none => simp [mutate, hA, hK] at h
    | some k =>
      rw [mutate_eq tcp ds k address hK hA]
      refine ⟨_, rfl, ?_⟩
      intro kv hkv
      simp only [mutateResult, mapOfList, List.foldl, mapInsert] at hkv ⊢
      rcases List.mem_singleton.mp hkv with rfl
      simp only [mergeMaps, List.foldl]
      exact mapLookup_insert_self _ _ _

/-- C4 witness: the theorem applied to the example control plane and a
managed object carrying a pre-existing template label. -/
theorem C4_selector_subset_template_labels_witness :
    ∃ sel,
      ((mutate exTCP { exDS with spec := { template :=
          { labels := [("pre", "kept")] } } }).2).spec.selector = some sel ∧
      ∀ kv ∈ sel.matchLabels,
        mapLookup ((mutate exTCP { exDS with spec := { template :=
            { labels := [("pre", "kept")] } } }).2).spec.template.labels
          kv.1 = some kv.2 :=
  C4_selector_subset_template_labels exTCP _ rfl

/-- C9: after every successful `mutate`, the liveness probe is an HTTP GET
on `/healthz`, port 8134, scheme HTTP, with initial delay 15, timeout 15,
period 10, success threshold 1, failure threshold 3; the credential volume
is mounted at `/var/run/secrets/tokens`; and the projected token volume
has expiration 3600 seconds and default file mode 420. -/
theorem C9_boundary_values (tcp : TenantControlPlane) (ds : DaemonSet)
    (h : (mutate tcp ds).1 = none) :
    ∃ c rest,
      ((mutate tcp ds).2).spec.template.spec.containers = c :: rest ∧
      c.livenessProbe = some
        { httpGet := some { path := "/healthz", port := 8134,
                            scheme := URIScheme.HTTP }
          initialDelaySeconds := 15, timeoutSeconds := 15,
          periodSeconds := 10, successThreshold := 1,
          failureThreshold := 3 } ∧
      c.volumeMounts = [{ mountPath := "/var/run/secrets/tokens",
                          name := agentTokenName }] ∧
      ((mutate tcp ds).2).spec.template.spec.volumes =
        [{ name := agentTokenName
           projected := some
             { sources := [{ path := agentTokenName
                             audience := tcp.status.clusterRoleBindingName
                             expirationSeconds := 3600 }]
               defaultMode := some 420 } }] := by
  cases hA : tcp.assignedAddress with
  | none => simp [mutate, hA] at h
  | some address =>
    cases hK : tcp.konnectivity with
    | none => simp [mutate, hA, hK] at h
    | some k =>
      rw [mutate_eq tcp ds k address hK hA]
      exact ⟨_, [], rfl, rfl, rfl, rfl⟩

/-- C9 witness: the theorem applied to the example control plane and the
freshly defined managed object. -/
theorem C9_boundary_values_witness :
    ∃ c rest,
      ((mutate exTCP exDS).2).spec.template.spec.containers = c :: rest ∧
      c.livenessProbe = some
        { httpGet := some { path := "/healthz", port := 8134,
                            scheme := URIScheme.HTTP }
          initialDelaySeconds := 15, timeoutSeconds := 15,
          periodSeconds := 10, successThreshold := 1,
          failureThreshold := 3 } ∧
      c.volumeMounts = [{ mountPath := "/var/run/secrets/tokens",
                          name := agentTokenName }] ∧
      ((mutate exTCP exDS).2).spec.template.spec.volumes =
        [{ name := agentTokenName
           projected := some
             { sources := [{ path := agentTokenName
                             audience := exTCP.status.clusterRoleBindingName
                             expirationSeconds := 3600 }]
               defaultMode := some 420 } }] :=
  C9_boundary_values exTCP exDS rfl

/-- C10: frame condition on the container list. When the incoming object
holds exactly one container, `mutate` rewrites that container in place and
the fields it does not set (environment, ports, resource requests) are
preserved; when the count differs from one, the whole list is replaced by
a single freshly zeroed container (so those fields come out empty and all
previous entries are discarded). -/
theorem C10_container_frame (tcp : TenantControlPlane) (ds : DaemonSet)
    (k : KonnectivitySpec) (address : String)
    (hk : tcp.konnectivity = some k)
    (ha : tcp.assignedAddress = some address) :
    (∀ c, ds.spec.template.spec.containers = [c] →
      ((mutate tcp ds).2).spec.template.spec.containers =
          [updateContainer k address c] ∧
      (updateContainer k address c).env = c.env ∧
      (updateContainer k address c).ports = c.ports ∧
      (updateContainer k address c).resources = c.resources) ∧
    (ds.spec.template.spec.containers.length ≠ 1 →
      ((mutate tcp ds).2).spec.template.spec.containers =
          [updateContainer k address {}] ∧
      (updateContainer k address ({} : Container)).env = [] ∧
      (updateContainer k address ({} : Container)).ports = [] ∧
      (updateContainer k address ({} : Container)).resources = []) := by
  rw [mutate_eq tcp ds k address hk ha]
  constructor
  · intro c hc
    refine ⟨?_, rfl, rfl, rfl⟩
    simp [mutateResult, hc]
  · intro hne
    refine ⟨?_, rfl, rfl, rfl⟩
    simp [mutateResult, hne]

/-- A container with pre-existing environment, ports and resources, for
the C10 witness. -/
def exContainer : Container :=
  { env := [("E", "1")], ports := [80], resources := [("cpu", "1")] }

/-- A managed object holding exactly `exContainer`, for the C10 witness. -/
def exDSWithContainer : DaemonSet :=
  { exDS with spec := { template := { spec :=
      { containers := [exContainer] } } } }

/-- C10 witness: the theorem applied to the example control plane and an
object holding one container with pre-existing environment, ports and
resources, all preserved. -/
theorem C10_container_frame_witness :
    ((mutate exTCP exDSWithContainer).2).spec.template.spec.containers =
      [updateContainer exSpec "10.0.0.1" exContainer] ∧
    (updateContainer exSpec "10.0.0.1" exContainer).env = exContainer.env ∧
    (updateContainer exSpec "10.0.0.1" exContainer).ports =
      exContainer.ports ∧
    (updateContainer exSpec "10.0.0.1" exContainer).resources =
      exContainer.resources :=
  (C10_container_frame exTCP exDSWithContainer exSpec "10.0.0.1"
    rfl rfl).1 exContainer rfl

/-- C6: `CleanUp` is an idempotent delete: a not-found delete yields
`(deleted = false, no error)`, a successful delete yields
`(deleted = true, no error)`, any other failure is returned unchanged;
and deleting twice in a row succeeds both times with `deleted = false`
the second time. -/
theorem C6_cleanup_idempotent_delete :
    CleanUp DeleteOutcome.notFound = (false, none) ∧
    CleanUp DeleteOutcome.ok = (true, none) ∧
    (∀ c : Nat, CleanUp (DeleteOutcome.failed c) =
      (false, some (AgentError.storeError c))) ∧
    ∀ ds : DaemonSet,
      CleanUpStore (some ds) = (true, none, none) ∧
      CleanUpStore (CleanUpStore (some ds)).2.2 = (false, none, none) := by
  refine ⟨rfl, rfl, fun c => rfl, fun ds => ⟨rfl, rfl⟩⟩

/-- C7: `UpdateTenantControlPlaneStatus` never returns an error; with the
add-on enabled it overwrites the status with the managed object's name,
namespace and the fresh timestamp; with the add-on disabled it resets the
status to the zero value (it never consults the store, so this holds
regardless of whether a delete occurred). -/
theorem C7_update_status (now : Nat) (res : DaemonSet)
    (tcp : TenantControlPlane) :
    (UpdateTenantControlPlaneStatus now res tcp).1 = none ∧
    (tcp.konnectivity.isSome = true →
      ((UpdateTenantControlPlaneStatus now res tcp).2).status.agent =
        { name := res.name, namespaceField := res.namespaceField,
          lastUpdate := now }) ∧
    (tcp.konnectivity = none →
      ((UpdateTenantControlPlaneStatus now res tcp).2).status.agent =
        { name := "", namespaceField := "", lastUpdate := 0 }) := by
  cases h : tcp.konnectivity <;>
    simp [UpdateTenantControlPlaneStatus, h]

/-- C7 witness: the theorem applied at a concrete enabled control plane. -/
theorem C7_update_status_witness :
    ((UpdateTenantControlPlaneStatus 7 exDS exTCP).2).status.agent =
      { name := exDS.name, namespaceField := exDS.namespaceField,
        lastUpdate := 7 } :=
  (C7_update_status 7 exDS exTCP).2.1 (by rfl)

/-- C8: with the add-on disabled, `CreateOrUpdate` returns
`OperationResultNone` with no error and performs no mutation: the state
(in-memory object and store) is returned unchanged. -/
theorem C8_disabled_noop (tcp : TenantControlPlane) (st : AgentState)
    (h : tcp.konnectivity = none) :
    CreateOrUpdate tcp st = (none, OperationResult.None, st) := by
  simp [CreateOrUpdate, h]

/-- C8 witness: the theorem applied at a concrete disabled control plane
with a populated store. -/
theorem C8_disabled_noop_witness :
    CreateOrUpdate exTCPDisabledPopulated
        { resource := exDS, store := some exDS } =
      (none, OperationResult.None, { resource := exDS, store := some exDS }) :=
  C8_disabled_noop exTCPDisabledPopulated _ rfl

end Kamaji
